import Mathlib

/-!
Shallow embedding of the CAFS certificate-verification engine
(repository RoopakBRK/CAFS).

Text is modelled as `List Char`; Python strings map to char lists,
`None` maps to `Option.none`.  Similarity scores (Python floats in
[0,1] built from the literals 1.0, 0.95, 0.7, 0.2, 0.9 by exact
arithmetic) are modelled as rationals.  `difflib.SequenceMatcher(...).ratio()`
is an external library routine and is passed in as an oracle parameter
`ratio`; no result below depends on its values.  Network fetches are
modelled by oracle functions from URL to response.
-/

namespace CAFS

/-! ### ASCII character helpers (Python `str.lower`, `str.upper`, `\s`) -/

/-- ASCII lower-casing of one character, as Python `str.lower` acts on ASCII. -/
def asciiLower (c : Char) : Char :=
  if 'A' ≤ c ∧ c ≤ 'Z' then Char.ofNat (c.toNat + 32) else c

/-- ASCII upper-casing of one character, as Python `str.upper` acts on ASCII. -/
def asciiUpper (c : Char) : Char :=
  if 'a' ≤ c ∧ c ≤ 'z' then Char.ofNat (c.toNat - 32) else c

/-- Python whitespace class `\s` over ASCII: space, tab, newline,
carriage return, vertical tab, form feed. -/
def isPySpace (c : Char) : Bool :=
  c = ' ' || c = '\t' || c = '\n' || c = '\x0d' || c = '\x0b' || c = '\x0c'

/-- Python `str.lower` over a whole string. -/
def toLowerStr (s : List Char) : List Char := s.map asciiLower

/-- Python `str.strip()`: remove leading and trailing whitespace. -/
def pyStrip (s : List Char) : List Char :=
  ((s.dropWhile isPySpace).reverse.dropWhile isPySpace).reverse

/-- Python substring test `needle in haystack` (`str.__contains__`). -/
def subIn (needle : List Char) : List Char → Bool
  | [] => needle.isEmpty
  | c :: rest => needle.isPrefixOf (c :: rest) || subIn needle rest

/-- Case-insensitive prefix test, used for the `(?i)` regex pieces. -/
def isPrefixCI : List Char → List Char → Bool
  | [], _ => true
  | _ :: _, [] => false
  | p :: ps, c :: cs => (asciiLower p == asciiLower c) && isPrefixCI ps cs

/-- Python `str.split()` with no argument: split on whitespace runs,
dropping empty pieces. -/
def splitWs (s : List Char) : List (List Char) :=
  (s.splitOnP isPySpace).filter (fun p => ¬p.isEmpty)

/-! ### The name matcher (`VerificationAgent._fuzzy_match_name`,
`src/app/agents/verificationagent.py` lines 231-281). -/

/-- The character class kept by `re.sub(r'[^a-z0-9\s]', '', s.lower())`:
lower-case letters, digits and whitespace survive. -/
def isKeptChar (c : Char) : Bool :=
  ('a' ≤ c && c ≤ 'z') || ('0' ≤ c && c ≤ '9') || isPySpace c

/-- Normalisation applied to both names:
`re.sub(r'[^a-z0-9\s]', '', s.lower())`. -/
def cleanText (s : List Char) : List Char :=
  (s.map asciiLower).filter isKeptChar

/-- `VerificationAgent._fuzzy_match_name(name1, name2, threshold)`.
`ratio` stands for `difflib.SequenceMatcher(None, a, b).ratio()`;
the Python default `threshold=0.70` is passed explicitly by callers.
Returns `(is_match, similarity_score)`. -/
def fuzzyMatchName (ratio : List Char → List Char → ℚ)
    (name1 name2 : List Char) (threshold : ℚ) : Bool × ℚ :=
  if name1.isEmpty || name2.isEmpty then (false, 0)
  else
    let n1 := cleanText name1
    let n2 := cleanText name2
    if subIn n1 n2 then (true, 1)
    else
      let parts := (splitWs n1).filter (fun p => 2 < p.length)
      if parts.isEmpty then
        let r := ratio n1 n2
        (decide (9/10 ≤ r), r)
      else
        let found := (parts.filter (fun p => subIn p n2)).length
        if found = parts.length then (true, 19/20)
        else if (parts.length : ℚ) / 2 ≤ (found : ℚ) then
          let partialScore := 7/10 + (1/5) * (found : ℚ) / (parts.length : ℚ)
          (decide (threshold ≤ partialScore), partialScore)
        else
          let r1 := ratio n1 n2
          let r2 := ratio (List.intercalate [' '] parts.reverse) n2
          let best := max r1 r2
          (decide (threshold ≤ best), best)

/-! ### Claim extractor (`ExtractionAgent`, `src/app/agents/extraction.py`).
The regular expressions of the source are embedded as specialised
left-to-right scanners with the exact leftmost-match and
greedy-with-backtracking semantics of Python `re` on those patterns. -/

def isAsciiLetter (c : Char) : Bool :=
  ('a' ≤ c && c ≤ 'z') || ('A' ≤ c && c ≤ 'Z')

def isDigitChar (c : Char) : Bool := '0' ≤ c && c ≤ '9'

/-- Split `s` at the first occurrence of `sep` (`sep` nonempty):
returns the part before and the part after, or `none` when absent. -/
def breakOnSub (sep : List Char) : List Char → Option (List Char × List Char)
  | [] => none
  | c :: rest =>
    if sep.isPrefixOf (c :: rest) then some ([], (c :: rest).drop sep.length)
    else
      match breakOnSub sep rest with
      | some (pre, post) => some (c :: pre, post)
      | none => none

/-- Fuel-driven worker for `splitOnSub`; the fuel `s.length + 1` always
suffices since each round consumes at least `sep.length ≥ 1` characters. -/
def splitOnSubAux (sep : List Char) : Nat → List Char → List (List Char)
  | 0, s => [s]
  | fuel + 1, s =>
    match breakOnSub sep s with
    | some (pre, post) => pre :: splitOnSubAux sep fuel post
    | none => [s]

/-- Python `str.split(sep)` for a nonempty separator: split at every
non-overlapping occurrence, keeping empty pieces. -/
def splitOnSub (sep s : List Char) : List (List Char) :=
  splitOnSubAux sep (s.length + 1) s

/-- Add a scheme when missing:
`if not url.startswith(('http://', 'https://')): url = 'https://' + url`. -/
def ensureScheme (url : List Char) : List Char :=
  if ("http://".data).isPrefixOf url || ("https://".data).isPrefixOf url then url
  else "https://".data ++ url

/-- The month alternation of `_clean_name`'s date regex, matched
case-insensitively at the head of `s`. -/
def monthAt (s : List Char) : Bool :=
  (["jan".data, "feb".data, "mar".data, "apr".data, "may".data, "jun".data,
    "jul".data, "aug".data, "sep".data, "oct".data, "nov".data,
    "dec".data]).any (fun m => isPrefixCI m s)

/-- Tail `\s+\d{4}` of the date regex: returns the number of characters
consumed. The greedy `\s+` cannot be shortened by backtracking because a
whitespace character can never satisfy `\d`. -/
def dateFinish (s : List Char) : Option Nat :=
  let sp := s.takeWhile isPySpace
  if sp.isEmpty then none
  else
    let rest := s.drop sp.length
    if 4 ≤ (rest.takeWhile isDigitChar).length then some (sp.length + 4) else none

/-- Piece `,?\s+\d{4}`: the greedy optional comma is tried first; retrying
without the comma is futile because `\s+` then faces the comma itself. -/
def dateAfterDay : List Char → Option Nat
  | ',' :: r => (dateFinish r).map (· + 1)
  | s => dateFinish s

/-- Piece `\d{1,2},?\s+\d{4}`: two digits are preferred; when two digits
are available the one-digit fallback would leave a digit where `,?\s+`
must begin, so it never succeeds. -/
def dateDay : List Char → Option Nat
  | a :: rest =>
    if isDigitChar a then
      match rest with
      | b :: r2 =>
        if isDigitChar b then (dateAfterDay r2).map (· + 2)
        else (dateAfterDay rest).map (· + 1)
      | [] => none
    else none
  | [] => none

/-- One attempt of `_clean_name`'s date regex
`(Jan|Feb|Mar|Apr|May|Jun|Jul|Aug|Sep|Oct|Nov|Dec)[a-z]*\s+\d{1,2},?\s+\d{4}`
(IGNORECASE) anchored at the head of `s`; yields the matched length. -/
def tryDateAt (s : List Char) : Option Nat :=
  if monthAt s then
    let rest := s.drop 3
    let letters := rest.takeWhile isAsciiLetter
    let rest2 := rest.drop letters.length
    let sp := rest2.takeWhile isPySpace
    if sp.isEmpty then none
    else (dateDay (rest2.drop (sp.length))).map
      (fun n => 3 + letters.length + sp.length + n)
  else none

/-- Fuel-driven `re.sub(dateRegex, '', s)`: scan left to right, removing
each leftmost match and resuming after it. Every removal consumes at
least one character, so fuel `s.length` suffices. -/
def subDateAux : Nat → List Char → List Char
  | 0, s => s
  | _ + 1, [] => []
  | fuel + 1, c :: rest =>
    match tryDateAt (c :: rest) with
    | some n => subDateAux fuel ((c :: rest).drop n)
    | none => c :: subDateAux fuel rest

def subDateAll (s : List Char) : List Char := subDateAux s.length s

/-- Character class kept by the second substitution of `_clean_name`:
everything except a trailing run of `[^a-zA-Z\s\.]` survives. -/
def isNameTailKept (c : Char) : Bool := isAsciiLetter c || isPySpace c || c = '.'

/-- `re.sub(r'[^a-zA-Z\s\.]+$', '', s)`: drop the trailing run of
characters outside the class. -/
def stripNameTail (s : List Char) : List Char :=
  (s.reverse.dropWhile (fun c => ¬isNameTailKept c)).reverse

/-- Python `str.title()` over ASCII: the first letter after a non-letter
is upper-cased, subsequent letters are lower-cased. -/
def pyTitleAux (prevAlpha : Bool) : List Char → List Char
  | [] => []
  | c :: rest =>
    if isAsciiLetter c then
      (if prevAlpha then asciiLower c else asciiUpper c) :: pyTitleAux true rest
    else c :: pyTitleAux false rest

def pyTitle (s : List Char) : List Char := pyTitleAux false s

/-- `ExtractionAgent._clean_name` (`extraction.py` lines 166-169). -/
def cleanName (s : List Char) : List Char :=
  pyTitle (pyStrip (stripNameTail (subDateAll s)))

/-- The non-empty stripped lines of the OCR text:
`[line.strip() for line in text.split('\n') if line.strip()]`. -/
def ocrLines (text : List Char) : List (List Char) :=
  ((text.splitOn '\n').map pyStrip).filter (fun l => ¬l.isEmpty)

def triggersAfter : List (List Char) :=
  ["successfully completed".data, "has completed".data,
   "for successfully completing".data]

def triggersBefore : List (List Char) :=
  ["this is to certify that".data, "presented to".data, "awarded to".data,
   "certifies that".data]

/-- The inner `for trigger in triggers_before` loop of
`_find_candidate_name`, which can fall through to the next trigger. -/
def tryTriggersBefore (line lineLower : List Char) (next? : Option (List Char)) :
    List (List Char) → Option (List Char)
  | [] => none
  | t :: ts =>
    if subIn t lineLower then
      let parts := splitOnSub t line
      match parts.drop 1 with
      | p1 :: _ =>
        if 3 < (pyStrip p1).length then some (cleanName p1)
        else
          match next? with
          | some nxt => some (cleanName nxt)
          | none => tryTriggersBefore line lineLower next? ts
      | [] =>
        match next? with
        | some nxt => some (cleanName nxt)
        | none => tryTriggersBefore line lineLower next? ts
    else tryTriggersBefore line lineLower next? ts

/-- The line loop of `_find_candidate_name`; `prev` is the previous
stripped line (`lines[i-1]`), the head of the remaining list after the
current line is `lines[i+1]`. -/
def nameSearchAux (prev : Option (List Char)) : List (List Char) → Option (List Char)
  | [] => none
  | line :: rest =>
    let ll := toLowerStr line
    match triggersAfter.find? (fun t => subIn t ll) with
    | some t =>
      if t.isPrefixOf ll && prev.isSome then prev.map cleanName
      else some (cleanName ((splitOnSub t ll).headD []))
    | none =>
      match tryTriggersBefore line ll rest.head? triggersBefore with
      | some r => some r
      | none => nameSearchAux (some line) rest

/-- `ExtractionAgent._find_candidate_name` (`extraction.py` lines 137-154). -/
def findCandidateName (text : List Char) : Option (List Char) :=
  nameSearchAux none (ocrLines text)

/-! #### `_find_certificate_id` (`extraction.py` lines 93-118) -/

def isUcChar (c : Char) : Bool := isAsciiLetter c || isDigitChar c || c = '-'

/-- Leftmost match of `(UC-[a-zA-Z0-9-]+)`: at each position, `UC-`
followed by at least one class character wins, the greedy `+` taking the
maximal run; otherwise the scan advances one character. -/
def ucScan : List Char → Option (List Char)
  | [] => none
  | 'U' :: rest =>
    match rest with
    | 'C' :: '-' :: rest2 =>
      let run := rest2.takeWhile isUcChar
      if run.isEmpty then ucScan rest else some ('U' :: 'C' :: '-' :: run)
    | _ => ucScan rest
  | _ :: rest => ucScan rest

/-- Separator class `[:\s#]` of the labelled-id pattern. -/
def isSepChar (c : Char) : Bool := c = ':' || isPySpace c || c = '#'

/-- Alphanumeric class `[a-z0-9]` under the pattern's `(?i)` flag. -/
def isAlnumAnyCase (c : Char) : Bool := isAsciiLetter c || isDigitChar c

/-- The alternation `(?:id|number|no\.?|code|credential)` with the greedy
optional dot expanded into the engine's attempt order. -/
def labelAlts : List (List Char) :=
  ["id".data, "number".data, "no.".data, "no".data, "code".data,
   "credential".data]

/-- One anchored attempt of
`(?i)(?:id|number|no\.?|code|credential)[:\s#]+([a-z0-9]*\d[a-z0-9]*)`:
alternatives in order; the greedy separator run cannot be usefully
backtracked (a separator never matches the capture's classes), and the
capture matches the maximal alphanumeric run exactly when that run
contains a digit. -/
def tryLabelAlts : List (List Char) → List Char → Option (List Char)
  | [], _ => none
  | a :: alts, s =>
    if isPrefixCI a s then
      let rest := s.drop a.length
      let seps := rest.takeWhile isSepChar
      if seps.isEmpty then tryLabelAlts alts s
      else
        let run := (rest.drop seps.length).takeWhile isAlnumAnyCase
        if ¬run.isEmpty && run.any isDigitChar then some run
        else tryLabelAlts alts s
    else tryLabelAlts alts s

/-- Leftmost match of the labelled-id pattern over the whole text,
returning the captured group. -/
def labelScan : List Char → Option (List Char)
  | [] => none
  | c :: rest =>
    match tryLabelAlts labelAlts (c :: rest) with
    | some r => some r
    | none => labelScan rest

/-- Word characters for `\b` (`\w` = letters, digits, underscore). -/
def isWordChar (c : Char) : Bool := isAsciiLetter c || isDigitChar c || c = '_'

/-- Leftmost match of
`\b(?=[a-z0-9]*\d)(?=[a-z0-9]*[a-z])[a-z0-9]{10,35}\b` over the already
lower-cased text. A boundary only exists where a word run starts, and
inside a maximal word run the trailing `\b` forces the match to be the
entire run; hence a run matches exactly when it is underscore-free, has
length 10-35, and contains a digit and a letter. -/
def hashAux (inWord : Bool) : List Char → Option (List Char)
  | [] => none
  | c :: rest =>
    if isWordChar c then
      if inWord then hashAux true rest
      else
        let run := c :: rest.takeWhile isWordChar
        if run.all (fun d => d ≠ '_') && decide (10 ≤ run.length)
            && decide (run.length ≤ 35) && run.any isDigitChar
            && run.any isAsciiLetter
        then some run
        else hashAux true rest
    else hashAux false rest

/-- `ExtractionAgent._find_certificate_id`. -/
def findCertificateId (text : List Char) : Option (List Char) :=
  match ucScan text with
  | some u => some u
  | none =>
    match labelScan text with
    | some found =>
      if 5 < found.length && toLowerStr found ≠ "certificate".data
      then some found
      else hashAux false (toLowerStr text)
    | none => hashAux false (toLowerStr text)

/-! #### `_find_url`, `_repair_url`, `_identify_organization` -/

/-- The alternation `(?:https?://|www\.|ude\.my/|coursera\.org/)` at the
head of `s`, returning the matched length (the alternatives are mutually
exclusive at any one position). -/
def isUrlAltAt (s : List Char) : Option Nat :=
  if ("http://".data).isPrefixOf s then some 7
  else if ("https://".data).isPrefixOf s then some 8
  else if ("www.".data).isPrefixOf s then some 4
  else if ("ude.my/".data).isPrefixOf s then some 7
  else if ("coursera.org/".data).isPrefixOf s then some 13
  else none

/-- Leftmost match of `(?:https?://|www\.|ude\.my/|coursera\.org/)[^\s]+`:
the greedy tail is the maximal non-whitespace run from the match start,
and `+` demands at least one character beyond the alternation. -/
def urlScan : List Char → Option (List Char)
  | [] => none
  | c :: rest =>
    match isUrlAltAt (c :: rest) with
    | some altLen =>
      let run := (c :: rest).takeWhile (fun d => ¬isPySpace d)
      if altLen < run.length then some run else urlScan rest
    | none => urlScan rest

/-- Python `str.rstrip('.,])')`. -/
def rstripPunct (s : List Char) : List Char :=
  (s.reverse.dropWhile (fun c => c = '.' || c = ',' || c = ']' || c = ')')).reverse

/-- `ExtractionAgent._find_url` (`extraction.py` lines 120-125):
`matches[0]` of `re.findall` is the leftmost match. -/
def findUrl (text : List Char) : Option (List Char) :=
  (urlScan text).map rstripPunct

/-- `ExtractionAgent._repair_url` (`extraction.py` lines 127-135).
When `ude.my/` occurs, `subIn` guarantees at least two split parts, so
the final catch-all arm is unreachable. -/
def repairUrl (url : List Char) : List Char :=
  if subIn ("ude.my/".data) url then
    match splitOnSub ("ude.my/".data) url with
    | p0 :: p1 :: _ =>
      p0 ++ "ude.my/".data ++
        ((p1.map (fun c => if c = 'l' then '1' else c)).map
          (fun c => if c = 'O' then '0' else c))
    | _ => ensureScheme url
  else ensureScheme url

def priorityPlatforms : List (List Char) :=
  ["coursera".data, "udemy".data, "edx".data, "udacity".data,
   "futurelearn".data]

/-- Python `str.capitalize()` over ASCII. -/
def pyCapitalize : List Char → List Char
  | [] => []
  | c :: rest => asciiUpper c :: rest.map asciiLower

/-- `ExtractionAgent._identify_organization` (`extraction.py` lines
73-91); `knownOrgs` is the CSV organisation list loaded at start-up. -/
def identifyOrganization (knownOrgs : List (List Char)) (text : List Char) :
    Option (List Char) :=
  let tl := toLowerStr text
  match priorityPlatforms.find? (fun p => subIn p tl) with
  | some p => some (pyCapitalize p)
  | none => knownOrgs.find? (fun org => subIn (toLowerStr org) tl)

/-- The built-in organisation list used when the CSV file is missing
(`_load_org_list`, `extraction.py` line 34). -/
def fallbackOrgs : List (List Char) :=
  ["Coursera".data, "Udemy".data, "edX".data, "LinkedIn".data, "IBM".data,
   "Google".data, "Udacity".data]

/-! ### Shared URL machinery of the verification agents -/

/-- Python `url.replace("www.", "")`: remove every (non-overlapping,
leftmost-first) occurrence of `www.`. -/
def stripWww : List Char → List Char
  | 'w' :: 'w' :: 'w' :: '.' :: rest => stripWww rest
  | c :: rest => c :: stripWww rest
  | [] => []

/-- The suffix following the first `://`, if any. -/
def afterScheme : List Char → Option (List Char)
  | ':' :: '/' :: '/' :: rest => some rest
  | _ :: rest => afterScheme rest
  | [] => none

/-- `urlparse(url).netloc` for the scheme-qualified absolute URLs this
code base builds and checks: the text between `://` and the next
`/`, `?` or `#` (a scheme-less string parses to an empty netloc). -/
def extractNetloc (url : List Char) : List Char :=
  match afterScheme url with
  | some r => r.takeWhile (fun c => c ≠ '/' && c ≠ '?' && c ≠ '#')
  | none => []

/-- `VerificationAgent._is_trusted_domain`
(`verificationagent.py` lines 139-165): exact membership first, then a
loop over the trusted set testing dot-suffix or equality. -/
def isTrustedDomain (trusted : List (List Char)) (url : List Char) : Bool :=
  let domain := stripWww (toLowerStr (extractNetloc url))
  trusted.contains domain ||
    trusted.any (fun t => List.isSuffixOf ('.' :: t) domain || domain == t)

/-- The nine built-in fallback domains added unconditionally by
`_load_trusted_sources` (`verificationagent.py` lines 128-135). -/
def fallbackDomains : List (List Char) :=
  ["udemy.com".data, "coursera.org".data, "edx.org".data, "linkedin.com".data,
   "credential.net".data, "credly.com".data, "youracclaim.com".data,
   "accredible.com".data, "certmetrics.com".data]

/-- Modelled from the claim's wording, for comparison with the source's
`_is_trusted_domain`: the host lower-cased with one leading `www.`
stripped, accepted exactly on equality with a trusted domain or on a
suffix match at a dot boundary. -/
def stripLeadingWww (h : List Char) : List Char :=
  if ("www.".data).isPrefixOf h then h.drop 4 else h

/-- Modelled from the claim's wording (see `stripLeadingWww`). -/
def hostTrustedSpec (trusted : List (List Char)) (host : List Char) : Bool :=
  let h := stripLeadingWww (toLowerStr host)
  trusted.any (fun t => h == t || List.isSuffixOf ('.' :: t) h)

/-- `VerificationAgent._normalize_url` (`verificationagent.py`
lines 201-229). -/
def normalizeUrl (url : List Char) (certId : Option (List Char)) : List Char :=
  if url.isEmpty then []
  else
    let u := ensureScheme url
    match certId with
    | some cid =>
      if ¬cid.isEmpty && ¬subIn cid u then
        if u.getLast? = some '/' then u ++ cid
        else if u.contains '?' then u ++ "&id=".data ++ cid
        else u ++ '/' :: cid
      else u
    | none => u

/-- `VerificationAgent.URL_PATTERNS` (`verificationagent.py` lines
34-67), in dict insertion order. Every pattern string of the source ends
with the certificate-id placeholder, so each pattern is stored as the
prefix before it and `pattern.format(cert_id=cid)` is prefix `++ cid`. -/
def urlPatterns : List (List Char × List (List Char)) :=
  [("coursera".data,
    ["https://www.coursera.org/verify/".data,
     "https://www.coursera.org/account/accomplishments/certificate/".data,
     "https://coursera.org/verify/".data]),
   ("udemy".data,
    ["https://www.udemy.com/certificate/".data,
     "https://udemy.com/certificate/UC-".data]),
   ("edx".data,
    ["https://credentials.edx.org/credentials/".data,
     "https://courses.edx.org/certificates/".data]),
   ("linkedin learning".data,
    ["https://www.linkedin.com/learning/certificates/".data]),
   ("google".data,
    ["https://www.credential.net/".data,
     "https://google.accredible.com/".data]),
   ("microsoft".data,
    ["https://www.credly.com/badges/".data,
     "https://learn.microsoft.com/api/credentials/share/".data]),
   ("ibm".data,
    ["https://www.credly.com/badges/".data,
     "https://www.youracclaim.com/badges/".data]),
   ("aws".data,
    ["https://www.credly.com/badges/".data,
     "https://aw.certmetrics.com/amazon/public/verification.aspx?code=".data])]

/-- Python truthiness of an optional string: `None` and `""` are falsy. -/
def optTruthy : Option (List Char) → Bool
  | none => false
  | some s => ¬s.isEmpty

/-- Python `f"{x}"` on an optional string: `None` prints as `None`. -/
def pyStr (o : Option (List Char)) : List Char := o.getD ("None".data)

/-- `VerificationAgent._get_url_patterns_for_issuer`
(`verificationagent.py` lines 167-199). -/
def getUrlPatternsForIssuer (orgMap : List (List Char × List Char))
    (issuerName : List Char) (certId : Option (List Char)) : List (List Char) :=
  match certId with
  | none => []
  | some cid =>
    if cid.isEmpty then []
    else
      let il := pyStrip (toLowerStr issuerName)
      (urlPatterns.foldr (fun kp acc =>
        (if subIn kp.1 il || subIn il kp.1 then kp.2.map (fun p => p ++ cid)
         else []) ++ acc) []) ++
      (match List.lookup il orgMap with
       | some base => [normalizeUrl base (some cid)]
       | none => [])

/-- `list(dict.fromkeys(urls))`: de-duplicate keeping first occurrences. -/
def dedupKeepFirstAux (seen : List (List Char)) : List (List Char) → List (List Char)
  | [] => []
  | x :: rest =>
    if seen.contains x then dedupKeepFirstAux seen rest
    else x :: dedupKeepFirstAux (x :: seen) rest

def dedupKeepFirst (l : List (List Char)) : List (List Char) :=
  dedupKeepFirstAux [] l

/-! ### Data model -/

/-- The extractor's output as both verification agents consume it
(`schemas.ExtractionResult` together with the issuer field, which
`extraction.py` emits as `issuer_org` and `verificationagent.py` reads
as `issuer_name.value`). -/
structure ExtractionData where
  candidate_name : Option (List Char)
  certificate_id : Option (List Char)
  issuer_name : Option (List Char)
  issuer_url : Option (List Char)

/-- `schemas.VerificationResult`. -/
structure VerificationResult where
  is_verified : Bool
  message : List Char
  trusted_domain : Bool
deriving DecidableEq

/-- Apostrophe character used inside several result messages. -/
def apos : Char := Char.ofNat 39

/-- Rendering of Python's percent formatting inside result messages. The
exact float formatting is immaterial here: no claim inspects a message
containing it. -/
def fmtPercent (q : ℚ) : List Char :=
  Nat.toDigits 10 (Int.toNat (Rat.floor (q * 10000))) ++ "%".data

def vaNoUrlMsg (org : Option (List Char)) : List Char :=
  "No verification URL available for organization ".data ++ [apos] ++
    pyStr org ++ [apos] ++ ".".data

def vaVerifiedMsg (succUrl : Option (List Char)) (sim : ℚ) : List Char :=
  "Verified successfully at ".data ++ pyStr succUrl ++
    ". Name match confidence: ".data ++ fmtPercent sim

def vaMismatchMsg (sim : ℚ) (name : Option (List Char)) (n : Nat) : List Char :=
  "Name mismatch. Best similarity: ".data ++ fmtPercent sim ++
    ". Expected: ".data ++ [apos] ++ pyStr name ++ [apos] ++
    ". Checked ".data ++ Nat.toDigits 10 n ++ " URL(s).".data

def vaFailedMsg (n : Nat) : List Char :=
  "Failed to fetch content from any of the ".data ++ Nat.toDigits 10 n ++
    " verification URL(s).".data

/-! ### The enhanced verification agent
(`VerificationAgent.verify`, `verificationagent.py` lines 455-547).
A network fetch (`_fetch_page_content`) is modelled by the oracle
`oracle : url → Option content`; the second component of each result is
the exact list of candidate URLs for which a fetch was issued. -/

/-- `VerificationAgent._try_multiple_urls` (`verificationagent.py`
lines 416-453), with explicit `best_similarity` and `best_url`
accumulators; 0.70 is the default threshold of `_fuzzy_match_name`. -/
def tryMultipleUrls (ratio : List Char → List Char → ℚ)
    (oracle : List Char → Option (List Char)) (candidateName : List Char) :
    List (List Char) → ℚ → Option (List Char) →
      (Bool × ℚ × Option (List Char)) × List (List Char)
  | [], best, bestUrl => ((false, best, bestUrl), [])
  | url :: rest, best, bestUrl =>
    match oracle url with
    | none =>
      let r := tryMultipleUrls ratio oracle candidateName rest best bestUrl
      (r.1, url :: r.2)
    | some body =>
      if body.isEmpty then
        let r := tryMultipleUrls ratio oracle candidateName rest best bestUrl
        (r.1, url :: r.2)
      else
        let m := fuzzyMatchName ratio candidateName body (7/10)
        let best2 := if best < m.2 then m.2 else best
        let bestUrl2 := if best < m.2 then some url else bestUrl
        if m.1 then ((true, m.2, some url), [url])
        else
          let r := tryMultipleUrls ratio oracle candidateName rest best2 bestUrl2
          (r.1, url :: r.2)

/-- The candidate-URL construction of `verify` (steps 1-3 plus the
order-preserving de-duplication, `verificationagent.py` lines 480-501). -/
def vaBuildUrls (orgMap : List (List Char × List Char)) (d : ExtractionData) :
    List (List Char) :=
  let step1 := if optTruthy d.issuer_url then
      [normalizeUrl (d.issuer_url.getD []) d.certificate_id] else []
  let step2 := if optTruthy d.issuer_name && optTruthy d.certificate_id then
      getUrlPatternsForIssuer orgMap (d.issuer_name.getD []) d.certificate_id
    else []
  let s12 := step1 ++ step2
  let step3 := if s12.isEmpty && optTruthy d.issuer_name then
      match List.lookup (pyStrip (toLowerStr (d.issuer_name.getD []))) orgMap with
      | some base => [normalizeUrl base d.certificate_id]
      | none => []
    else []
  dedupKeepFirst (s12 ++ step3)

/-- `VerificationAgent.verify` of the enhanced agent. -/
def vaVerify (trusted : List (List Char)) (orgMap : List (List Char × List Char))
    (ratio : List Char → List Char → ℚ) (d : ExtractionData)
    (oracle : List Char → Option (List Char)) :
    VerificationResult × List (List Char) :=
  if ¬optTruthy d.candidate_name then
    (⟨false, "No candidate name provided for verification.".data, false⟩, [])
  else
    let urls := vaBuildUrls orgMap d
    if urls.isEmpty then
      (⟨false, vaNoUrlMsg d.issuer_name, false⟩, [])
    else if ¬urls.any (isTrustedDomain trusted) then
      (⟨false, "None of the verification URLs are from trusted domains.".data,
        false⟩, [])
    else
      match tryMultipleUrls ratio oracle (d.candidate_name.getD []) urls 0 none with
      | ((isVer, sim, succUrl), fetched) =>
        if isVer then (⟨true, vaVerifiedMsg succUrl sim, true⟩, fetched)
        else if 0 < sim then
          (⟨false, vaMismatchMsg sim d.candidate_name urls.length, true⟩, fetched)
        else (⟨false, vaFailedMsg urls.length, true⟩, fetched)

/-! ### The simple verification agent
(`VerificationAgent.verify`, `verification.py` lines 61-157). Its single
HTTP request is modelled by an oracle returning either a transport
error (the `except` branch, message `str(e)`) or a status code and body. -/

inductive VsResp where
  | err (msg : List Char)
  | resp (status : Nat) (body : List Char)

def vsOrgNotFoundMsg (org : List Char) : List Char :=
  "Organization ".data ++ [apos] ++ org ++ [apos] ++
    " not found in trusted list.".data

def serverStatusMsg (s : Nat) : List Char :=
  "Server Status: ".data ++ Nat.toDigits 10 s

/-- Steps 1-2 of the simple `verify`: take the extracted URL or
reconstruct it from organization and certificate id
(`verification.py` lines 62-94). -/
def vsBuildUrl (orgMap : List (List Char × List Char)) (d : ExtractionData) :
    Except VerificationResult (List Char) :=
  if optTruthy d.issuer_url then Except.ok (d.issuer_url.getD [])
  else if optTruthy d.issuer_name && optTruthy d.certificate_id then
    match List.lookup (toLowerStr (d.issuer_name.getD [])) orgMap with
    | some base =>
      let base2 := if base.getLast? = some '/' then base else base ++ ['/']
      Except.ok (base2 ++ d.certificate_id.getD [])
    | none =>
      Except.error ⟨false, vsOrgNotFoundMsg (d.issuer_name.getD []), false⟩
  else
    Except.error
      ⟨false, "Missing URL and insufficient data (Org/ID) to reconstruct it.".data,
        false⟩

/-- Step 4 of the simple `verify`: the URL, with every `www.` removed
and then lower-cased, must start with one of the trusted prefixes
treated the same way (`verification.py` lines 100-109). -/
def vsTrusted (pfxs : List (List Char)) (url : List Char) : Bool :=
  let urlClean := toLowerStr (stripWww url)
  pfxs.any (fun p => (toLowerStr (stripWww p)).isPrefixOf urlClean)

/-- The simple `VerificationAgent.verify`; the second component is the
list of URLs fetched (here at most one). An `httpx.Response` object is
always truthy, so the source's `if response:` else-arm is unreachable
and not modelled. -/
def vsVerify (pfxs : List (List Char)) (orgMap : List (List Char × List Char))
    (d : ExtractionData) (oracle : List Char → VsResp) :
    VerificationResult × List (List Char) :=
  match vsBuildUrl orgMap d with
  | Except.error r => (r, [])
  | Except.ok u0 =>
    let u := ensureScheme u0
    if ¬vsTrusted pfxs u then
      (⟨false, "URL domain is not in the trusted onlinelist.csv.".data, false⟩, [])
    else
      match oracle u with
      | VsResp.err m => (⟨false, m, true⟩, [u])
      | VsResp.resp status body =>
        if status = 200 then
          if optTruthy d.candidate_name then
            let nameParts := (splitWs (toLowerStr (d.candidate_name.getD []))).filter
              (fun p => 2 < p.length)
            let nameMatches := if nameParts.isEmpty then false
              else nameParts.all (fun p => subIn p (toLowerStr body))
            if nameMatches then
              (⟨true, "Verified (Name Match).".data, true⟩, [u])
            else
              (⟨true, "Verified Domain (Name mismatch/OCR error).".data, true⟩, [u])
          else (⟨true, "Verified Domain (Name unreadable).".data, true⟩, [u])
        else if status = 403 then
          (⟨true, "Verified (Trusted Source - Access Blocked).".data, true⟩, [u])
        else if status = 404 then
          (⟨false, "Invalid Certificate ID (404 Not Found).".data, true⟩, [u])
        else (⟨false, serverStatusMsg status, true⟩, [u])

/-! ### Trust-store state (`_load_trusted_sources`, `add_trusted_domain`,
`add_organization` of `verificationagent.py`). Python's set and dict are
modelled by lists: only membership matters to the claims, and the most
recent dict binding is put in front. -/

structure AgentState where
  orgMap : List (List Char × List Char)
  trustedDomains : List (List Char)

/-- `_load_trusted_sources` (`verificationagent.py` lines 84-137) applied
to the parsed CSV rows (organization name, verification URL); a missing
or partially read file behaves like a shorter row list, and the nine
fallback domains are added afterwards in every case. -/
def loadTrustedSources (rows : List (List Char × List Char)) : AgentState :=
  let s := rows.foldl (fun (st : AgentState) row =>
    let orgName := pyStrip row.1
    let verifyUrl := pyStrip row.2
    if verifyUrl.isEmpty then st
    else
      let vu := ensureScheme verifyUrl
      let domain := stripWww (toLowerStr (extractNetloc vu))
      let st2 := { st with trustedDomains := domain :: st.trustedDomains }
      if orgName.isEmpty then st2
      else { st2 with orgMap := (pyStrip (toLowerStr orgName), vu) :: st2.orgMap })
    ⟨[], []⟩
  { s with trustedDomains := s.trustedDomains ++ fallbackDomains }

/-- A runtime mutation of the agent's trust store. -/
inductive AgentOp where
  | addDomain (d : List Char)
  | addOrg (name url : List Char)

/-- `add_trusted_domain` and `add_organization`
(`verificationagent.py` lines 549-560). -/
def applyOp (st : AgentState) : AgentOp → AgentState
  | AgentOp.addDomain d =>
    { st with trustedDomains := stripWww (toLowerStr d) :: st.trustedDomains }
  | AgentOp.addOrg name url =>
    { st with
      orgMap := (toLowerStr name, url) :: st.orgMap,
      trustedDomains := stripWww (toLowerStr (extractNetloc url)) :: st.trustedDomains }

/-- Any finite sequence of runtime mutations applied in order. -/
def applyOps (ops : List AgentOp) (st : AgentState) : AgentState :=
  ops.foldl applyOp st

/-! ### Concrete inputs used by counterexamples and witnesses -/

/-- The OCR text of the repository's own end-to-end scenario
(`test_improvements.py`, the spec's concrete scenario A). -/
def sampleOcrText : List Char :=
  ("\n    CERTIFICATE OF COMPLETION\n    This is to certify that\n    John Doe\n    has successfully completed the course\n    Python for Beginners\n    on Coursera\n    Certificate ID: 1234567890\n    https://coursera.org/verify/1234567890\n    ").data

/-- An extraction whose explicit URL is untrusted while the issuer is a
known platform, so the candidate list mixes untrusted and trusted URLs. -/
def mixedTrustData : ExtractionData :=
  ⟨some ("John Doe".data), some ("123".data), some ("Coursera".data),
    some ("https://evil.com/x".data)⟩

/-- An extraction whose only candidate URL is untrusted. -/
def untrustedOnlyData : ExtractionData :=
  ⟨some ("J".data), none, none, some ("https://evil.com/a".data)⟩

/-- An extraction with a missing candidate name but otherwise complete. -/
def namelessData : ExtractionData :=
  ⟨none, some ("1".data), some ("Coursera".data),
    some ("https://coursera.org/verify/1".data)⟩

/-- A wholly empty extraction. -/
def emptyExtraction : ExtractionData := ⟨none, none, none, none⟩

/-- An extraction carrying a single trusted short-link URL. -/
def udemyShortLinkData : ExtractionData :=
  ⟨some ("John Doe".data), none, none, some ("https://ude.my/abc".data)⟩

/-! ## Theorems -/

/-! ### Helper lemmas -/

theorem isEmpty_false_of_ne_nil (l : List Char) (h : l ≠ []) :
    l.isEmpty = false := by
  cases l with
  | nil => exact absurd rfl h
  | cons c cs => rfl

theorem subIn_nil (h : List Char) : subIn [] h = true := by
  cases h with
  | nil => rfl
  | cons c cs => rfl

theorem isPrefixOf_self_append (l t : List Char) : l.isPrefixOf (l ++ t) = true := by
  induction l with
  | nil => cases t <;> rfl
  | cons c cs ih =>
    show (c == c && cs.isPrefixOf (cs ++ t)) = true
    simp [ih]

theorem subIn_append_middle (a n b : List Char) :
    subIn n (a ++ (n ++ b)) = true := by
  induction a with
  | nil =>
    cases n with
    | nil => exact subIn_nil b
    | cons c cs =>
      show subIn (c :: cs) (c :: (cs ++ b)) = true
      simp [subIn, isPrefixOf_self_append (c :: cs) b]
  | cons c cs ih =>
    show subIn n (c :: (cs ++ (n ++ b))) = true
    simp [subIn, ih]

theorem cleanText_append (a b : List Char) :
    cleanText (a ++ b) = cleanText a ++ cleanText b := by
  simp [cleanText]

theorem mem_trustedDomains_applyOps (d : List Char) :
    ∀ (ops : List AgentOp) (st : AgentState),
      d ∈ st.trustedDomains → d ∈ (applyOps ops st).trustedDomains := by
  intro ops
  induction ops with
  | nil => intro st h; exact h
  | cons op rest ih =>
    intro st h
    have h2 : d ∈ (applyOp st op).trustedDomains := by
      cases op with
      | addDomain dd => exact List.mem_cons_of_mem _ h
      | addOrg n u => exact List.mem_cons_of_mem _ h
    exact ih (applyOp st op) h2

/-! ### Claims C7 and C9: the name matcher -/

/-- C7: name matching is reflexive — for every non-empty name and every
page text containing the name verbatim (as a contiguous substring), the
matcher returns a match with similarity exactly 1.0, for any edit-ratio
oracle and any threshold. -/
theorem c7_match_reflexive (ratio : List Char → List Char → ℚ) (threshold : ℚ)
    (name pre post : List Char) (hn : name ≠ []) :
    fuzzyMatchName ratio name (pre ++ name ++ post) threshold = (true, 1) := by
  have hname : name.isEmpty = false := isEmpty_false_of_ne_nil name hn
  have hsub : subIn (cleanText name) (cleanText (pre ++ (name ++ post))) = true := by
    rw [cleanText_append, cleanText_append]
    exact subIn_append_middle (cleanText pre) (cleanText name) (cleanText post)
  simp [fuzzyMatchName, hname, hn, hsub]

/-- Witness for C7 at a concrete name and page. -/
theorem c7_witness :
    fuzzyMatchName (fun _ _ => 0) ("Jo".data) ("xJoy".data) (7/10) = (true, 1) :=
  c7_match_reflexive (fun _ _ => 0) (7/10) ("Jo".data) ("x".data) ("y".data)
    (by decide)

/-- C9: a non-empty name whose normalisation is empty (e.g. pure
punctuation) fully matches every non-empty page with similarity 1.0,
because the empty string is a substring of everything. -/
theorem c9_empty_normalized_name_matches (ratio : List Char → List Char → ℚ)
    (threshold : ℚ) (name page : List Char) (hn : name ≠ []) (hp : page ≠ [])
    (hclean : cleanText name = []) :
    fuzzyMatchName ratio name page threshold = (true, 1) := by
  have h1 : name.isEmpty = false := isEmpty_false_of_ne_nil name hn
  have h2 : page.isEmpty = false := isEmpty_false_of_ne_nil page hp
  have hs : subIn (cleanText name) (cleanText page) = true := by
    rw [hclean]; exact subIn_nil (cleanText page)
  simp [fuzzyMatchName, h1, h2, hs]

/-- Witness for C9 at the claim's example input. -/
theorem c9_witness :
    fuzzyMatchName (fun _ _ => 0) ("???".data) ("x".data) (7/10) = (true, 1) :=
  c9_empty_normalized_name_matches (fun _ _ => 0) (7/10) ("???".data) ("x".data)
    (by decide) (by decide) (by decide)

/-! ### Claim C1: no verdict is verified against an untrusted domain -/

/-- Every early-rejection result embedded in a `vsBuildUrl` error is
unverified and untrusted. -/
theorem vsBuildUrl_error_shape (orgMap : List (List Char × List Char))
    (d : ExtractionData) (r : VerificationResult)
    (h : vsBuildUrl orgMap d = Except.error r) :
    r.is_verified = false ∧ r.trusted_domain = false := by
  unfold vsBuildUrl at h
  repeat' split at h
  all_goals
    first
      | (injection h with h1; rw [← h1]; exact ⟨rfl, rfl⟩)
      | (injection h)

/-- C1: for every input and every fetch behaviour, both agents'
`verify` maintain the invariant that a verdict with
`trusted_domain = false` also has `is_verified = false`. -/
theorem c1_untrusted_never_verified
    (trusted : List (List Char)) (orgMap : List (List Char × List Char))
    (ratio : List Char → List Char → ℚ) (d : ExtractionData)
    (oracle : List Char → Option (List Char))
    (pfxs : List (List Char)) (orgMap2 : List (List Char × List Char))
    (d2 : ExtractionData) (oracle2 : List Char → VsResp) :
    ((vaVerify trusted orgMap ratio d oracle).1.trusted_domain = false →
      (vaVerify trusted orgMap ratio d oracle).1.is_verified = false) ∧
    ((vsVerify pfxs orgMap2 d2 oracle2).1.trusted_domain = false →
      (vsVerify pfxs orgMap2 d2 oracle2).1.is_verified = false) := by
  constructor
  · simp only [vaVerify]
    repeat' split
    all_goals intro h
    all_goals first | rfl | exact absurd h (by simp)
  · simp only [vsVerify]
    split
    · rename_i r heq
      intro _
      exact (vsBuildUrl_error_shape orgMap2 d2 r heq).1
    · repeat' split
      all_goals intro h
      all_goals first | rfl | exact absurd h (by simp)

/-- Witness for C1: both agents on an empty extraction produce an
untrusted, unverified verdict. -/
theorem c1_witness :
    (vaVerify fallbackDomains [] (fun _ _ => 0) emptyExtraction
      (fun _ => none)).1.is_verified = false ∧
    (vsVerify [] [] emptyExtraction (fun _ => VsResp.err [])).1.is_verified = false :=
  ⟨(c1_untrusted_never_verified fallbackDomains [] (fun _ _ => 0) emptyExtraction
      (fun _ => none) [] [] emptyExtraction (fun _ => VsResp.err [])).1 (by decide),
   (c1_untrusted_never_verified fallbackDomains [] (fun _ _ => 0) emptyExtraction
      (fun _ => none) [] [] emptyExtraction (fun _ => VsResp.err [])).2 (by decide)⟩

/-! ### Claim C2: the trust boundary and fetching -/

/-- Counterexample to C2 as stated: with an untrusted explicit URL and a
trusted issuer, the enhanced `verify` fetches the untrusted URL (it is
even the first fetch issued) although its domain is untrusted — one
trusted candidate in the list licenses fetching all of them. -/
theorem c2_counterexample :
    ("https://evil.com/x/123".data ∈
      (vaVerify fallbackDomains [] (fun _ _ => 0) mixedTrustData
        (fun _ => none)).2) ∧
    ((vaVerify fallbackDomains [] (fun _ _ => 0) mixedTrustData
        (fun _ => none)).2.head? = some ("https://evil.com/x/123".data)) ∧
    isTrustedDomain fallbackDomains ("https://evil.com/x/123".data) = false := by
  refine ⟨?_, by decide, by decide⟩
  decide

/-- C2 as amended: the trust check does happen strictly before any
fetch — when no candidate URL resolves to a trusted domain, `verify`
issues no fetch at all; only a list containing at least one trusted
candidate is probed (and then it is probed in full, including any
untrusted members). -/
theorem c2_no_fetch_without_trusted_candidate
    (trusted : List (List Char)) (orgMap : List (List Char × List Char))
    (ratio : List Char → List Char → ℚ) (d : ExtractionData)
    (oracle : List Char → Option (List Char))
    (h : ∀ u ∈ vaBuildUrls orgMap d, isTrustedDomain trusted u = false) :
    (vaVerify trusted orgMap ratio d oracle).2 = [] := by
  unfold vaVerify
  by_cases hn : optTruthy d.candidate_name = true
  · have hany : (vaBuildUrls orgMap d).any (isTrustedDomain trusted) = false := by
      by_contra hcon
      rcases List.any_eq_true.mp (Bool.of_not_eq_false hcon) with ⟨u, hu, hup⟩
      exact absurd hup (by simp [h u hu])
    by_cases he : (vaBuildUrls orgMap d).isEmpty = true <;> simp [hn, he, hany]
  · simp [hn]

/-- Witness for the amended C2: an extraction whose only candidate URL
is untrusted triggers no fetch. -/
theorem c2_witness :
    (vaVerify fallbackDomains [] (fun _ _ => 0) untrustedOnlyData
      (fun _ => none)).2 = [] :=
  c2_no_fetch_without_trusted_candidate fallbackDomains [] (fun _ _ => 0)
    untrustedOnlyData (fun _ => none) (by decide)

/-! ### Claim C5: a missing candidate name means no fetch -/

/-- C5: whenever the candidate name is `None` or empty, the enhanced
`verify` rejects with `is_verified = false` and the list of fetched URLs
is empty (the fetch-call counter stays at zero). -/
theorem c5_null_name_no_fetch
    (trusted : List (List Char)) (orgMap : List (List Char × List Char))
    (ratio : List Char → List Char → ℚ) (d : ExtractionData)
    (oracle : List Char → Option (List Char))
    (hname : optTruthy d.candidate_name = false) :
    (vaVerify trusted orgMap ratio d oracle).1.is_verified = false ∧
    (vaVerify trusted orgMap ratio d oracle).2 = [] := by
  unfold vaVerify
  simp [hname]

/-- Witness for C5: a nameless but otherwise complete extraction. -/
theorem c5_witness :
    (vaVerify fallbackDomains [] (fun _ _ => 0) namelessData
      (fun _ => none)).1.is_verified = false ∧
    (vaVerify fallbackDomains [] (fun _ _ => 0) namelessData
      (fun _ => none)).2 = [] :=
  c5_null_name_no_fetch fallbackDomains [] (fun _ _ => 0) namelessData
    (fun _ => none) (by decide)

/-! ### Claims C3 and C4: status-code semantics of the simple agent -/

/-- C3: when the (single) candidate URL is trusted and its fetch answers
HTTP 403, `verify` returns a soft-trusted pass: verified, trusted, with
the access-blocked message. -/
theorem c3_403_soft_trusted_pass
    (pfxs : List (List Char)) (orgMap : List (List Char × List Char))
    (d : ExtractionData) (oracle : List Char → VsResp) (u body : List Char)
    (hb : vsBuildUrl orgMap d = Except.ok u)
    (ht : vsTrusted pfxs (ensureScheme u) = true)
    (h403 : oracle (ensureScheme u) = VsResp.resp 403 body) :
    (vsVerify pfxs orgMap d oracle).1 =
      ⟨true, "Verified (Trusted Source - Access Blocked).".data, true⟩ ∧
    (vsVerify pfxs orgMap d oracle).2 = [ensureScheme u] ∧
    subIn ("Blocked".data) ("Verified (Trusted Source - Access Blocked).".data)
      = true := by
  refine ⟨?_, ?_, by decide⟩ <;>
    · simp only [vsVerify, hb, ht, h403]
      simp

/-- Witness for C3 on the trusted short-link URL with a 403 server. -/
theorem c3_witness :
    (vsVerify [("https://ude.my/".data)] [] udemyShortLinkData
      (fun _ => VsResp.resp 403 [])).1 =
      ⟨true, "Verified (Trusted Source - Access Blocked).".data, true⟩ :=
  (c3_403_soft_trusted_pass [("https://ude.my/".data)] [] udemyShortLinkData
    (fun _ => VsResp.resp 403 []) ("https://ude.my/abc".data) [] rfl
    (by decide) rfl).1

/-- C4: when the trusted candidate URL's fetch answers HTTP 404,
`verify` returns `is_verified = false` with the invalid-identifier
message, and that message differs from the generic failure message
produced for every other non-handled status code. -/
theorem c4_404_invalid_identifier
    (pfxs : List (List Char)) (orgMap : List (List Char × List Char))
    (d : ExtractionData) (oracle : List Char → VsResp) (u body : List Char)
    (hb : vsBuildUrl orgMap d = Except.ok u)
    (ht : vsTrusted pfxs (ensureScheme u) = true)
    (h404 : oracle (ensureScheme u) = VsResp.resp 404 body) :
    (vsVerify pfxs orgMap d oracle).1 =
      ⟨false, "Invalid Certificate ID (404 Not Found).".data, true⟩ ∧
    (∀ s body2, s ≠ 200 → s ≠ 403 → s ≠ 404 →
      (vsVerify pfxs orgMap d (fun _ => VsResp.resp s body2)).1 =
        ⟨false, serverStatusMsg s, true⟩ ∧
      serverStatusMsg s ≠ "Invalid Certificate ID (404 Not Found).".data) := by
  constructor
  · simp only [vsVerify, hb, ht, h404]
    simp
  · intro s body2 hs200 hs403 hs404
    constructor
    · simp only [vsVerify, hb, ht]
      simp [hs200, hs403, hs404]
    · intro hcontra
      have hhead := congrArg List.head? hcontra
      rw [show serverStatusMsg s =
        'S' :: ("erver Status: ".data ++ Nat.toDigits 10 s) from rfl] at hhead
      simp at hhead

/-- Witness for C4 on the trusted short-link URL with a 404 server. -/
theorem c4_witness :
    (vsVerify [("https://ude.my/".data)] [] udemyShortLinkData
      (fun _ => VsResp.resp 404 [])).1 =
      ⟨false, "Invalid Certificate ID (404 Not Found).".data, true⟩ ∧
    serverStatusMsg 500 ≠ "Invalid Certificate ID (404 Not Found).".data :=
  ⟨(c4_404_invalid_identifier [("https://ude.my/".data)] [] udemyShortLinkData
      (fun _ => VsResp.resp 404 []) ("https://ude.my/abc".data) [] rfl
      (by decide) rfl).1,
   ((c4_404_invalid_identifier [("https://ude.my/".data)] [] udemyShortLinkData
      (fun _ => VsResp.resp 404 []) ("https://ude.my/abc".data) [] rfl
      (by decide) rfl).2 500 [] (by decide) (by decide) (by decide)).2⟩

/-! ### Claim C6: the trusted-domain membership test -/

theorem takeWhile_append_stop (p : Char → Bool) (l : List Char) (a : Char)
    (t : List Char) (hl : ∀ c ∈ l, p c = true) (ha : p a = false) :
    (l ++ a :: t).takeWhile p = l := by
  induction l with
  | nil => simp [List.takeWhile_cons, ha]
  | cons c cs ih =>
    have hc := hl c (by simp)
    simp only [List.cons_append, List.takeWhile_cons, hc]
    simp [ih (fun x hx => hl x (by simp [hx]))]

theorem afterScheme_https (r : List Char) :
    afterScheme ("https://".data ++ r) = some r := rfl

theorem extractNetloc_https (host path : List Char)
    (h1 : '/' ∉ host) (h2 : '?' ∉ host) (h3 : '#' ∉ host) :
    extractNetloc ("https://".data ++ (host ++ '/' :: path)) = host := by
  unfold extractNetloc
  rw [afterScheme_https]
  refine takeWhile_append_stop _ host '/' path (fun c hc => ?_) (by decide)
  have e1 : c ≠ '/' := fun e => h1 (e ▸ hc)
  have e2 : c ≠ '?' := fun e => h2 (e ▸ hc)
  have e3 : c ≠ '#' := fun e => h3 (e ▸ hc)
  simp [e1, e2, e3]

/-- Counterexample to C6 as stated: `_is_trusted_domain` removes every
occurrence of `www.` from the host, not only a leading one, so the URL
`https://coursera.www.org/verify` — whose host is neither a trusted
domain nor a subdomain of one — is accepted, while the claim's
membership rule (`hostTrustedSpec`) rejects that host. -/
theorem c6_counterexample :
    isTrustedDomain fallbackDomains ("https://coursera.www.org/verify".data)
      = true ∧
    hostTrustedSpec fallbackDomains ("coursera.www.org".data) = false := by
  constructor <;> decide

/-- C6 as amended: the membership test lower-cases the host and removes
every occurrence of `www.` (not just a leading one), then accepts
exactly on set membership, equality, or suffix match at a dot boundary —
never by raw substring containment; in particular
`evil-coursera.org.attacker.com` is not trusted under the built-in
domains. -/
theorem c6_membership_characterization :
    (∀ (trusted : List (List Char)) (host path : List Char),
      '/' ∉ host → '?' ∉ host → '#' ∉ host →
      isTrustedDomain trusted ("https://".data ++ (host ++ '/' :: path)) =
        (trusted.contains (stripWww (toLowerStr host)) ||
          trusted.any (fun t =>
            List.isSuffixOf ('.' :: t) (stripWww (toLowerStr host)) ||
              stripWww (toLowerStr host) == t))) ∧
    isTrustedDomain fallbackDomains
      ("https://evil-coursera.org.attacker.com/x".data) = false := by
  constructor
  · intro trusted host path h1 h2 h3
    unfold isTrustedDomain
    rw [extractNetloc_https host path h1 h2 h3]
  · decide

/-- Witness for the amended C6 at the counterexample's host. -/
theorem c6_witness :
    isTrustedDomain fallbackDomains
      ("https://".data ++ ("coursera.www.org".data ++ '/' :: "verify".data)) =
      (fallbackDomains.contains (stripWww (toLowerStr ("coursera.www.org".data))) ||
        fallbackDomains.any (fun t =>
          List.isSuffixOf ('.' :: t) (stripWww (toLowerStr ("coursera.www.org".data))) ||
            stripWww (toLowerStr ("coursera.www.org".data)) == t)) :=
  c6_membership_characterization.1 fallbackDomains ("coursera.www.org".data)
    ("verify".data) (by decide) (by decide) (by decide)

/-! ### Claim C8: the concrete extraction scenario -/

/-- C8: on the scenario's OCR text the extractor finds candidate name
`John Doe`, certificate id `1234567890`, issuer `Coursera` (for every
loaded organisation list, since the priority-platform scan decides), and
a repaired URL containing `coursera.org/verify/1234567890`. -/
theorem c8_scenario_extraction (knownOrgs : List (List Char)) :
    findCandidateName sampleOcrText = some ("John Doe".data) ∧
    findCertificateId sampleOcrText = some ("1234567890".data) ∧
    identifyOrganization knownOrgs sampleOcrText = some ("Coursera".data) ∧
    (findUrl sampleOcrText).map repairUrl =
      some ("https://coursera.org/verify/1234567890".data) ∧
    subIn ("coursera.org/verify/1234567890".data)
      ("https://coursera.org/verify/1234567890".data) = true := by
  refine ⟨by decide, by decide, ?_, by decide, by decide⟩
  rfl

/-! ### Claim C10: the fallback domains are in every reachable state -/

/-- C10: after construction from any CSV row list (including a
successfully loaded one) and any sequence of `add_trusted_domain` and
`add_organization` calls, each of the nine built-in fallback domains is
in the trusted-domain set: construction appends them unconditionally and
the runtime operations only ever add. -/
theorem c10_fallback_domains_persistent
    (rows : List (List Char × List Char)) (ops : List AgentOp)
    (dom : List Char) (hd : dom ∈ fallbackDomains) :
    dom ∈ (applyOps ops (loadTrustedSources rows)).trustedDomains := by
  refine mem_trustedDomains_applyOps dom ops (loadTrustedSources rows) ?_
  show dom ∈ _ ++ fallbackDomains
  exact List.mem_append.mpr (Or.inr hd)

/-- Witness for C10: a loaded CSV row plus runtime additions still leave
`certmetrics.com` trusted. -/
theorem c10_witness :
    ("certmetrics.com".data) ∈
      (applyOps [AgentOp.addDomain ("www.Example.com".data),
          AgentOp.addOrg ("Acme".data) ("https://acme.example/verify".data)]
        (loadTrustedSources
          [("Coursera".data, "coursera.org/verify".data)])).trustedDomains :=
  c10_fallback_domains_persistent
    [("Coursera".data, "coursera.org/verify".data)]
    [AgentOp.addDomain ("www.Example.com".data),
      AgentOp.addOrg ("Acme".data) ("https://acme.example/verify".data)]
    ("certmetrics.com".data) (by decide)

end CAFS
